import Mathlib

/-!
Verification development for the OpenXR eye-tracker feeds
(`src/openxr-api-layer/psvr2_toolkit.cpp` and
`src/openxr-api-layer/vrchat_osc.cpp`).

Modelling conventions:
* IEEE single-precision values are modelled as exact rationals together with
  an explicit NaN marker (`F`); infinities and rounding are out of scope.
  The C `sinf`/`cosf` routines are abstracted as parameters of type `F → F`,
  and the float constant `M_PI` as a rational parameter.
* The monotonic clock (`std::chrono::high_resolution_clock`) is modelled as a
  natural number of nanoseconds since the clock epoch; a default-constructed
  `time_point{}` is the epoch, i.e. `0`.  Durations are compared as integers,
  matching the signed `count()` comparison in the source.
* The background loops are modelled as step functions folded over a list of
  input events (one event per loop iteration), and teardown as the list of
  actions the destructor performs.
-/

set_option linter.unusedVariables false

namespace OpenXREyeTrackers

/-- A float value: either NaN or a finite value modelled as an exact rational. -/
inductive F where
  | nan : F
  | fin : ℚ → F
deriving DecidableEq

namespace F

/-- `std::isnan`. -/
def isNaN : F → Bool
  | .nan => true
  | .fin _ => false

/-- Float addition: NaN-propagating, otherwise exact. -/
def add : F → F → F
  | .fin a, .fin b => .fin (a + b)
  | _, _ => .nan

/-- Float multiplication: NaN-propagating, otherwise exact. -/
def mul : F → F → F
  | .fin a, .fin b => .fin (a * b)
  | _, _ => .nan

/-- Float subtraction: NaN-propagating, otherwise exact. -/
def sub : F → F → F
  | .fin a, .fin b => .fin (a - b)
  | _, _ => .nan

/-- Float division: NaN-propagating; divisors used in the source are the
nonzero constants `2` and `180`. -/
def div : F → F → F
  | .fin a, .fin b => .fin (a / b)
  | _, _ => .nan

/-- Float unary negation: NaN-propagating. -/
def neg : F → F
  | .nan => .nan
  | .fin a => .fin (-a)

instance : Add F := ⟨F.add⟩
instance : Mul F := ⟨F.mul⟩
instance : Sub F := ⟨F.sub⟩
instance : Div F := ⟨F.div⟩

@[simp] theorem isNaN_nan : (F.nan).isNaN = true := rfl

@[simp] theorem isNaN_fin (a : ℚ) : (F.fin a).isNaN = false := rfl

@[simp] theorem add_def (a b : F) : a + b = F.add a b := rfl

@[simp] theorem mul_def (a b : F) : a * b = F.mul a b := rfl

@[simp] theorem sub_def (a b : F) : a - b = F.sub a b := rfl

@[simp] theorem div_def (a b : F) : a / b = F.div a b := rfl

@[simp] theorem isNaN_add (a b : F) : (F.add a b).isNaN = (a.isNaN || b.isNaN) := by
  cases a <;> cases b <;> rfl

@[simp] theorem isNaN_mul (a b : F) : (F.mul a b).isNaN = (a.isNaN || b.isNaN) := by
  cases a <;> cases b <;> rfl

@[simp] theorem isNaN_sub (a b : F) : (F.sub a b).isNaN = (a.isNaN || b.isNaN) := by
  cases a <;> cases b <;> rfl

@[simp] theorem isNaN_div (a b : F) : (F.div a b).isNaN = (a.isNaN || b.isNaN) := by
  cases a <;> cases b <;> rfl

@[simp] theorem isNaN_neg (a : F) : (F.neg a).isNaN = a.isNaN := by
  cases a <;> rfl

/-- Negating before a division is the same as negating after it. -/
theorem div_of_neg (a b : F) : F.div (F.neg a) b = F.neg (F.div a b) := by
  cases a <;> cases b <;> simp [F.div, F.neg, neg_div]

/-- `a - b` agrees with `a + (-b)`. -/
theorem sub_eq_addNeg (a b : F) : F.sub a b = F.add a (F.neg b) := by
  cases a <;> cases b <;> simp [F.sub, F.add, F.neg, sub_eq_add_neg]

/-- A negated factor can be pulled out of a product. -/
theorem mul_of_neg (a b : F) : F.mul (F.neg a) b = F.neg (F.mul a b) := by
  cases a <;> cases b <;> simp [F.mul, F.neg]

end F

/-- `XrVector3f`, with components in the float model. -/
structure XrVector3f where
  x : F
  y : F
  z : F
deriving DecidableEq

/-- The stored-NaN test performed before every cache write:
`std::isnan(v.x) || std::isnan(v.y) || std::isnan(v.z)`. -/
def XrVector3f.hasNaN (v : XrVector3f) : Bool :=
  v.x.isNaN || v.y.isNaN || v.z.isNaN

/-- The shared cached state of a tracker: `m_latestGaze` and
`m_lastReceivedTime` (nanoseconds of the monotonic clock). -/
structure TrackerState where
  m_latestGaze : XrVector3f
  m_lastReceivedTime : ℕ
deriving DecidableEq

/-- The member initializers `XrVector3f m_latestGaze{}` and
`std::chrono::high_resolution_clock::time_point m_lastReceivedTime{}`:
a zero vector and the clock epoch. -/
def initState : TrackerState :=
  { m_latestGaze := ⟨F.fin 0, F.fin 0, F.fin 0⟩, m_lastReceivedTime := 0 }

/-- The freshness window: `1'000'000'000` nanoseconds. -/
def FreshnessWindow : ℤ := 1000000000

/-- `isGazeAvailable(XrTime time)`: identical bodies in
`Psvr2ToolkitEyeTracker` and `VRChatOSCEyeTracker`.  `now` is the value the
body samples from the monotonic clock; the `XrTime` argument is kept to model
the source signature. -/
def isGazeAvailable (st : TrackerState) (now : ℕ) (time : ℤ) : Bool :=
  ((now : ℤ) - (st.m_lastReceivedTime : ℤ)) < FreshnessWindow

/-- `getGaze(XrTime time, XrVector3f& unitVector)`: identical bodies in both
trackers.  `some v` models `return true` with `unitVector = v` written;
`none` models `return false` with the output untouched. -/
def getGaze (st : TrackerState) (now : ℕ) (time : ℤ) : Option XrVector3f :=
  if isGazeAvailable st now time then some st.m_latestGaze else none

/-- The guarded cache write of `Psvr2ToolkitEyeTracker::ipcThread`
(`if (!(isnan ...)) { lock; m_latestGaze = gaze; m_lastReceivedTime = now; }`):
both fields written together, rejected wholesale when any component is NaN. -/
def recordSample (st : TrackerState) (gaze : XrVector3f) (now : ℕ) : TrackerState :=
  if gaze.hasNaN then st else { m_latestGaze := gaze, m_lastReceivedTime := now }

/-- The most recent element of a record trace whose vector has no NaN
component, i.e. the most recent sample the cache accepts. -/
def lastAccepted : List (XrVector3f × ℕ) → Option (XrVector3f × ℕ)
  | [] => none
  | e :: t =>
    match lastAccepted t with
    | some r => some r
    | none => if e.1.hasNaN then none else some e

/-- Folding a trace of record attempts through the cache. -/
def runRecords (st : TrackerState) (l : List (XrVector3f × ℕ)) : TrackerState :=
  List.foldl (fun s p => recordSample s p.1 p.2) st l

theorem runRecords_of_lastAccepted_none (l : List (XrVector3f × ℕ)) :
    ∀ st : TrackerState, lastAccepted l = none → runRecords st l = st := by
  induction l with
  | nil => intro st _; rfl
  | cons e t ih =>
    intro st h
    simp only [lastAccepted] at h
    cases ht : lastAccepted t with
    | some r => rw [ht] at h; exact absurd h (by simp)
    | none =>
      rw [ht] at h
      by_cases he : e.1.hasNaN = true
      · simp only [runRecords, List.foldl_cons]
        have : recordSample st e.1 e.2 = st := by simp [recordSample, he]
        rw [this]
        exact ih st ht
      · rw [if_neg (by simpa using he)] at h
        exact absurd h (by simp)

theorem runRecords_of_lastAccepted_some (l : List (XrVector3f × ℕ))
    (v : XrVector3f) (ts : ℕ) :
    ∀ st : TrackerState, lastAccepted l = some (v, ts) →
      runRecords st l = { m_latestGaze := v, m_lastReceivedTime := ts } := by
  induction l with
  | nil => intro st h; exact absurd h (by simp [lastAccepted])
  | cons e t ih =>
    intro st h
    simp only [lastAccepted] at h
    cases ht : lastAccepted t with
    | some r =>
      rw [ht] at h
      simp only [Option.some.injEq] at h
      subst h
      exact ih _ ht
    | none =>
      rw [ht] at h
      by_cases he : e.1.hasNaN = true
      · rw [if_pos he] at h; exact absurd h (by simp)
      · rw [if_neg he] at h
        simp only [Option.some.injEq] at h
        subst h
        have hrec : recordSample st (v, ts).1 (v, ts).2 =
            { m_latestGaze := v, m_lastReceivedTime := ts } := by
          simp only [recordSample]
          rw [if_neg he]
        simp only [runRecords, List.foldl_cons]
        rw [hrec]
        exact runRecords_of_lastAccepted_none t _ ht

/-! ## Device feed: bounded-retry socket read loop

The same loop shape appears twice in `psvr2_toolkit.cpp` (handshake response,
and gaze response): starting from `retries` attempts and accumulated `offset`,
each iteration performs one `recv` (the next element of `chunks`, with a
non-positive value meaning "no data"), adds a positive return to the offset,
breaks as soon as `size` bytes have accumulated, and otherwise sleeps and
decrements `retries`.  The result is the final `(retries, offset)` pair. -/

def recvLoop (size : ℕ) : ℕ → ℕ → List ℤ → ℕ × ℕ
  | 0, offset, _ => (0, offset)
  | retries + 1, offset, chunks =>
    let result := chunks.headI
    let offset' := if 0 < result then offset + result.toNat else offset
    if size ≤ offset' then (retries + 1, offset')
    else recvLoop size retries offset' chunks.tail

/-- If the loop ends with its retry budget exhausted, the buffer is still
short of `size` bytes (provided it started short of them). -/
theorem recvLoop_exhausted_incomplete (size : ℕ) :
    ∀ (retries offset : ℕ) (chunks : List ℤ), offset < size →
      (recvLoop size retries offset chunks).1 = 0 →
      (recvLoop size retries offset chunks).2 < size := by
  intro retries
  induction retries with
  | zero => intro offset chunks hlt _; simpa [recvLoop] using hlt
  | succ r ih =>
    intro offset chunks hlt h
    simp only [recvLoop] at h ⊢
    by_cases hc : size ≤ (if 0 < chunks.headI then offset + chunks.headI.toNat else offset)
    · rw [if_pos hc] at h; exact absurd h (by simp)
    · rw [if_neg hc] at h ⊢
      exact ih _ _ (lt_of_not_le hc) h

/-- If the full `size` bytes were accumulated, the loop did not exhaust its
retry budget (it broke out with the final positive `retries` value). -/
theorem recvLoop_complete_retries_pos (size : ℕ) (chunks : List ℤ)
    (hsz : 0 < size) (hfull : size ≤ (recvLoop size 5 0 chunks).2) :
    (recvLoop size 5 0 chunks).1 ≠ 0 := by
  intro h
  exact absurd hfull (not_le_of_lt (recvLoop_exhausted_incomplete size 5 0 chunks hsz h))

/-! ## Device feed: handshake and construction outcome

The wire tags `Command_ServerHandshakeResult` and `HandshakeResult_Success`
come from `ipc_protocol.h`, an opaque ABI owned by the external device server;
their concrete numeric values are irrelevant to the theorems below, which only
compare fields against these named constants. -/

def Command_ServerHandshakeResult : ℕ := 2

def HandshakeResult_Success : ℕ := 0

/-- The handshake phase of `Psvr2ToolkitEyeTracker::Psvr2ToolkitEyeTracker`:
after a successful connect, the constructor throws
`EyeTrackerNotSupportedException` iff
`!retries || response.header.type != Command_ServerHandshakeResult ||
 response.payload.result != HandshakeResult_Success`
where `retries` is the value left by the 5-attempt read loop.  `connectOk`
models whether the preceding 15-attempt connect loop succeeded (it throws when
it did not). -/
def constructionThrows (size : ℕ) (connectOk : Bool) (chunks : List ℤ)
    (headerType payloadResult : ℕ) : Bool :=
  !connectOk || (recvLoop size 5 0 chunks).1 == 0 ||
    headerType != Command_ServerHandshakeResult ||
    payloadResult != HandshakeResult_Success

/-- `createPsvr2ToolkitEyeTracker`: wraps construction, mapping a throw to
"no tracker" (`none`). -/
def createPsvr2ToolkitEyeTracker (size : ℕ) (connectOk : Bool) (chunks : List ℤ)
    (headerType payloadResult : ℕ) : Option Unit :=
  if constructionThrows size connectOk chunks headerType payloadResult then none
  else some ()

/-! ## Device feed: gaze responses and the IPC loop body -/

/-- One eye's entry in `CommandDataServerGazeDataResult_t`. -/
structure EyeGazeData where
  gazeDirNorm : XrVector3f
  isGazeDirValid : Bool
deriving DecidableEq

/-- The payload of a gaze response. -/
structure CommandDataServerGazeDataResult where
  leftEye : EyeGazeData
  rightEye : EyeGazeData
deriving DecidableEq

/-- The gaze computed at `psvr2_toolkit.cpp:200-202`:
`gaze.x = -(left.x + right.x) / 2.f`, `gaze.y = (left.y + right.y) / 2.f`,
`gaze.z = -(left.z + right.z) / 2.f`. -/
def convertGaze (resp : CommandDataServerGazeDataResult) : XrVector3f :=
  { x := F.neg (resp.leftEye.gazeDirNorm.x + resp.rightEye.gazeDirNorm.x) / F.fin 2
    y := (resp.leftEye.gazeDirNorm.y + resp.rightEye.gazeDirNorm.y) / F.fin 2
    z := F.neg (resp.leftEye.gazeDirNorm.z + resp.rightEye.gazeDirNorm.z) / F.fin 2 }

/-- The inputs consumed by one iteration of `ipcThread`: the successive `recv`
returns while reading the response, the response contents, and the monotonic
clock value sampled by the iteration. -/
structure IpcEvent where
  chunks : List ℤ
  response : CommandDataServerGazeDataResult
  now : ℕ
deriving DecidableEq

/-- The cache-affecting part of one `ipcThread` iteration
(`psvr2_toolkit.cpp:179-216`): read with 5 bounded retries, and on a complete
read with both validity flags set, convert and hand to the guarded cache
write. -/
def processGazeResponse (size : ℕ) (st : TrackerState) (ev : IpcEvent) :
    TrackerState :=
  if (recvLoop size 5 0 ev.chunks).1 != 0 && ev.response.leftEye.isGazeDirValid
      && ev.response.rightEye.isGazeDirValid then
    recordSample st (convertGaze ev.response) ev.now
  else st

/-- The loop-visible state of the IPC thread: the `m_started` flag its guard
reads, and the cached tracker state. -/
structure IpcLoopState where
  m_started : Bool
  state : TrackerState
deriving DecidableEq

/-- One full `while (m_started)` check-plus-body step of `ipcThread`.  The
body never assigns `m_started`. -/
def ipcThreadIteration (size : ℕ) (s : IpcLoopState) (ev : IpcEvent) :
    IpcLoopState :=
  if s.m_started then
    { m_started := s.m_started, state := processGazeResponse size s.state ev }
  else s

/-! ## Device feed: teardown -/

/-- The externally visible actions of `~Psvr2ToolkitEyeTracker`. -/
inductive TeardownStep where
  | joinThread
  | shutdownSocket
  | closeSocket
  | wsaCleanup
deriving DecidableEq

/-- `Psvr2ToolkitEyeTracker::stop()` has an empty body: it performs no
teardown action and in particular never assigns `m_started`. -/
def stopSteps : List TeardownStep := []

/-- The destructor body (`psvr2_toolkit.cpp:118-128`), in program order:
`if (m_started) join; if (m_socket != INVALID_SOCKET) { shutdown; close; }
WSACleanup();`.  No statement of it assigns `m_started`. -/
def destructorSteps (m_started : Bool) (socketValid : Bool) : List TeardownStep :=
  (if m_started then [TeardownStep.joinThread] else []) ++
    (if socketValid then [TeardownStep.shutdownSocket, TeardownStep.closeSocket]
     else []) ++ [TeardownStep.wsaCleanup]

/-! ## Network (OSC) feed

`sinf`/`cosf` are the C float trigonometric routines, abstracted as functions
on the float model; `M_PI` is the float value of that constant, abstracted as
a rational. -/

/-- One received OSC message, as seen by
`VRChatOSCEyeTracker::ProcessMessage`: its address pattern, whether the
four-float argument extraction succeeds (`wellFormed = false` models the
`osc::Exception` path, which is caught and ignored), the four angle arguments
in degrees, and the monotonic clock value sampled while handling it. -/
structure OscMessage where
  addressPattern : String
  wellFormed : Bool
  leftPitch : F
  leftYaw : F
  rightPitch : F
  rightYaw : F
  now : ℕ

/-- `yaw * M_PI / 180.0f` (`vrchat_osc.cpp:97,99`). -/
def degToRad (M_PI : ℚ) (deg : F) : F :=
  deg * F.fin M_PI / F.fin 180

/-- `pitch * M_PI / 180.0f * -1.0f` (`vrchat_osc.cpp:96,98`): the pitch sign
inversion. -/
def degToRadNegPitch (M_PI : ℚ) (deg : F) : F :=
  deg * F.fin M_PI / F.fin 180 * F.fin (-1)

/-- The `unitVector` computed at `vrchat_osc.cpp:101-105`. -/
def oscUnitVector (sinf cosf : F → F) (M_PI : ℚ) (m : OscMessage) : XrVector3f :=
  let leftPitchRad := degToRadNegPitch M_PI m.leftPitch
  let leftYawRad := degToRad M_PI m.leftYaw
  let rightPitchRad := degToRadNegPitch M_PI m.rightPitch
  let rightYawRad := degToRad M_PI m.rightYaw
  { x := (sinf leftYawRad * cosf leftPitchRad
          + sinf rightYawRad * cosf rightPitchRad) / F.fin 2
    y := (sinf leftPitchRad + sinf rightPitchRad) / F.fin 2
    z := (F.neg (cosf leftYawRad) * cosf leftPitchRad
          - cosf rightYawRad * cosf rightPitchRad) / F.fin 2 }

/-- `VRChatOSCEyeTracker::ProcessMessage`: on the recognized address pattern,
with a well-formed argument stream and no NaN among the four input angles,
stores the computed unit vector together with the sampled clock value;
otherwise leaves the state untouched. -/
def ProcessMessage (sinf cosf : F → F) (M_PI : ℚ) (st : TrackerState)
    (m : OscMessage) : TrackerState :=
  if m.addressPattern = "/tracking/eye/LeftRightPitchYaw" then
    if m.wellFormed then
      if m.leftPitch.isNaN || m.leftYaw.isNaN || m.rightPitch.isNaN
          || m.rightYaw.isNaN then st
      else { m_latestGaze := oscUnitVector sinf cosf M_PI m
             m_lastReceivedTime := m.now }
    else st
  else st

/-- Modelled from the spec: the per-eye spherical-to-Cartesian projection
`X = sin(yaw)·cos(pitch), Y = sin(pitch), Z = −cos(yaw)·cos(pitch)`, applied
to already-converted (radian, pitch-sign-inverted) angles. -/
def specEyeProjection (sinf cosf : F → F) (pitch yaw : F) : XrVector3f :=
  { x := sinf yaw * cosf pitch
    y := sinf pitch
    z := F.neg (cosf yaw * cosf pitch) }

/-- Modelled from the spec: the per-axis unweighted average over both eyes of
the projections of the degree-to-radian-converted, pitch-sign-inverted
angles. -/
def specDirectionVector (sinf cosf : F → F) (M_PI : ℚ) (m : OscMessage) :
    XrVector3f :=
  let l := specEyeProjection sinf cosf (degToRadNegPitch M_PI m.leftPitch)
    (degToRad M_PI m.leftYaw)
  let r := specEyeProjection sinf cosf (degToRadNegPitch M_PI m.rightPitch)
    (degToRad M_PI m.rightYaw)
  { x := (l.x + r.x) / F.fin 2
    y := (l.y + r.y) / F.fin 2
    z := (l.z + r.z) / F.fin 2 }

/-- The code's grouped formula coincides with the spec's
average-of-projections formula, for every message and every interpretation of
the trigonometric routines. -/
theorem oscUnitVector_eq_specDirectionVector (sinf cosf : F → F) (M_PI : ℚ)
    (m : OscMessage) :
    oscUnitVector sinf cosf M_PI m = specDirectionVector sinf cosf M_PI m := by
  simp only [oscUnitVector, specDirectionVector, specEyeProjection, F.sub_def,
    F.add_def, F.mul_def, F.div_def]
  rw [F.sub_eq_addNeg, F.mul_of_neg]

/-! ## Generic fold invariants -/

theorem foldl_inv {α β : Type} (f : α → β → α) (P : α → Prop)
    (hf : ∀ a b, P a → P (f a b)) :
    ∀ (l : List β) (a : α), P a → P (List.foldl f a l) := by
  intro l
  induction l with
  | nil => intro a ha; exact ha
  | cons e t ih => intro a ha; exact ih (f a e) (hf a e ha)

theorem foldl_id_or_mk {α β : Type} (step : α → β → α) (P : β → Prop)
    (mk : β → α) (hstep : ∀ a b, step a b = a ∨ (P b ∧ step a b = mk b)) :
    ∀ (l : List β) (a : α),
      List.foldl step a l = a ∨
        ∃ b ∈ l, P b ∧ List.foldl step a l = mk b := by
  intro l
  induction l with
  | nil => intro a; exact Or.inl rfl
  | cons e t ih =>
    intro a
    rcases ih (step a e) with h | ⟨b, hb, hP, hfold⟩
    · rcases hstep a e with he | ⟨hP, he⟩
      · left
        rw [List.foldl_cons, h, he]
      · right
        exact ⟨e, by simp, hP, by rw [List.foldl_cons, h, he]⟩
    · right
      exact ⟨b, by simp [hb], hP, by simpa using hfold⟩

/-! ## Claim C1 -/

/-- Claim C1: for every recorded sequence of samples with at least one
accepted (non-NaN) sample, the freshness-gated read returns the most recently
accepted vector iff the query time is strictly within the one-second
`FreshnessWindow` of its recording timestamp, and reports unavailable
otherwise. -/
theorem freshness_gated_read_iff (l : List (XrVector3f × ℕ)) (v : XrVector3f)
    (ts now : ℕ) (t : ℤ) (h : lastAccepted l = some (v, ts)) :
    (getGaze (runRecords initState l) now t = some v ↔
      (now : ℤ) - (ts : ℤ) < FreshnessWindow)
    ∧ (¬((now : ℤ) - (ts : ℤ) < FreshnessWindow) →
      getGaze (runRecords initState l) now t = none) := by
  rw [runRecords_of_lastAccepted_some l v ts initState h]
  by_cases hf : (now : ℤ) - (ts : ℤ) < FreshnessWindow
  · exact ⟨by simp [getGaze, isGazeAvailable, hf], fun hnf => absurd hf hnf⟩
  · exact ⟨by simp [getGaze, isGazeAvailable, hf], fun _ => by
      simp [getGaze, isGazeAvailable, hf]⟩

/-- Witness for C1 at a concrete trace and query time. -/
theorem freshness_gated_read_iff_witness :
    lastAccepted [((⟨F.fin 1, F.fin 0, F.fin 0⟩ : XrVector3f), 5)] =
      some (⟨F.fin 1, F.fin 0, F.fin 0⟩, 5)
    ∧ ((getGaze (runRecords initState
          [((⟨F.fin 1, F.fin 0, F.fin 0⟩ : XrVector3f), 5)]) 7 0 =
        some ⟨F.fin 1, F.fin 0, F.fin 0⟩ ↔
          ((7 : ℕ) : ℤ) - ((5 : ℕ) : ℤ) < FreshnessWindow)
      ∧ (¬(((7 : ℕ) : ℤ) - ((5 : ℕ) : ℤ) < FreshnessWindow) →
        getGaze (runRecords initState
          [((⟨F.fin 1, F.fin 0, F.fin 0⟩ : XrVector3f), 5)]) 7 0 = none)) :=
  ⟨by decide, freshness_gated_read_iff
    [((⟨F.fin 1, F.fin 0, F.fin 0⟩ : XrVector3f), 5)]
    ⟨F.fin 1, F.fin 0, F.fin 0⟩ 5 7 0 (by decide)⟩

/-! ## Claim C7 -/

/-- Claim C7 counterexample: a tracker that never received a sample reports
*available* (with the zero vector) when queried at the clock epoch, because
the never-recorded timestamp defaults to the epoch, not to the construction
time. -/
theorem never_sampled_available_at_epoch :
    isGazeAvailable initState 0 0 = true ∧
    getGaze initState 0 0 = some ⟨F.fin 0, F.fin 0, F.fin 0⟩ := by
  decide

/-- Claim C7 amended: a tracker whose cache never accepted a sample reports
unavailable at every query time at least `FreshnessWindow` after the clock
epoch; the never-recorded timestamp defaults to the clock epoch (zero), not
to the construction time. -/
theorem never_sampled_unavailable_after_window (l : List (XrVector3f × ℕ))
    (now : ℕ) (t : ℤ) (hl : lastAccepted l = none)
    (hnow : FreshnessWindow ≤ (now : ℤ)) :
    isGazeAvailable (runRecords initState l) now t = false ∧
    getGaze (runRecords initState l) now t = none := by
  rw [runRecords_of_lastAccepted_none l initState hl]
  have hna : ¬((now : ℤ) < FreshnessWindow) := not_lt.mpr hnow
  have hb : isGazeAvailable initState now t = false := by
    simp [isGazeAvailable, initState, hna]
  exact ⟨hb, by simp [getGaze, hb]⟩

/-- Witness for the amended C7 at the empty trace, one second past the
epoch. -/
theorem never_sampled_unavailable_after_window_witness :
    lastAccepted ([] : List (XrVector3f × ℕ)) = none
    ∧ FreshnessWindow ≤ ((1000000000 : ℕ) : ℤ)
    ∧ (isGazeAvailable (runRecords initState []) 1000000000 0 = false ∧
      getGaze (runRecords initState []) 1000000000 0 = none) :=
  ⟨rfl, by decide,
    never_sampled_unavailable_after_window [] 1000000000 0 rfl (by decide)⟩

/-! ## Claim C9 -/

/-- Claim C9: for both trackers (the two classes contain identical
`isGazeAvailable`/`getGaze` bodies, embedded here once), the results are
independent of the `XrTime` argument: freshness is judged solely against the
internal monotonic clock reading. -/
theorem gaze_query_ignores_xrtime :
    ∀ (st : TrackerState) (now : ℕ) (t1 t2 : ℤ),
      isGazeAvailable st now t1 = isGazeAvailable st now t2 ∧
      getGaze st now t1 = getGaze st now t2 :=
  fun _ _ _ _ => ⟨rfl, rfl⟩

/-! ## Claim C4 -/

/-- Claim C4: after a successful connect, device-feed construction fails
exactly when the 5-retry handshake read exhausts, or the response type tag
differs from `Command_ServerHandshakeResult`, or the embedded result code is
not `HandshakeResult_Success`; a fully received response with matching type
and success code lets construction succeed. -/
theorem handshake_construction_outcome (size : ℕ) (chunks : List ℤ)
    (headerType payloadResult : ℕ) (hsz : 0 < size) :
    (createPsvr2ToolkitEyeTracker size true chunks headerType payloadResult =
        none ↔
      ((recvLoop size 5 0 chunks).1 = 0 ∨
        headerType ≠ Command_ServerHandshakeResult ∨
        payloadResult ≠ HandshakeResult_Success))
    ∧ (size ≤ (recvLoop size 5 0 chunks).2 ∧
        headerType = Command_ServerHandshakeResult ∧
        payloadResult = HandshakeResult_Success →
      createPsvr2ToolkitEyeTracker size true chunks headerType payloadResult =
        some ()) := by
  have hiff : constructionThrows size true chunks headerType payloadResult =
      true ↔
      ((recvLoop size 5 0 chunks).1 = 0 ∨
        headerType ≠ Command_ServerHandshakeResult ∨
        payloadResult ≠ HandshakeResult_Success) := by
    simp [constructionThrows, or_assoc]
  constructor
  · by_cases hb : constructionThrows size true chunks headerType payloadResult =
        true
    · have hnone : createPsvr2ToolkitEyeTracker size true chunks headerType
          payloadResult = none := by
        simp [createPsvr2ToolkitEyeTracker, hb]
      rw [hnone]
      exact iff_of_true rfl (hiff.mp hb)
    · have hsome : createPsvr2ToolkitEyeTracker size true chunks headerType
          payloadResult = some () := by
        simp [createPsvr2ToolkitEyeTracker, hb]
      rw [hsome]
      exact iff_of_false (by simp) fun hd => hb (hiff.mpr hd)
  · rintro ⟨hfull, ht, hres⟩
    have hr := recvLoop_complete_retries_pos size chunks hsz hfull
    have hnb : ¬(constructionThrows size true chunks headerType payloadResult =
        true) := by
      intro hb
      rcases hiff.mp hb with hd | hd | hd
      · exact hr hd
      · exact hd ht
      · exact hd hres
    simp [createPsvr2ToolkitEyeTracker, hnb]

/-- Witness for C4 at a one-byte response read in one attempt, with matching
tag and success code. -/
theorem handshake_construction_outcome_witness :
    0 < 1
    ∧ ((createPsvr2ToolkitEyeTracker 1 true [1] Command_ServerHandshakeResult
          HandshakeResult_Success = none ↔
        ((recvLoop 1 5 0 [1]).1 = 0 ∨
          Command_ServerHandshakeResult ≠ Command_ServerHandshakeResult ∨
          HandshakeResult_Success ≠ HandshakeResult_Success))
      ∧ (1 ≤ (recvLoop 1 5 0 [1]).2 ∧
          Command_ServerHandshakeResult = Command_ServerHandshakeResult ∧
          HandshakeResult_Success = HandshakeResult_Success →
        createPsvr2ToolkitEyeTracker 1 true [1] Command_ServerHandshakeResult
          HandshakeResult_Success = some ())) :=
  ⟨by decide, handshake_construction_outcome 1 [1] Command_ServerHandshakeResult
    HandshakeResult_Success (by decide)⟩

/-! ## Claim C5 -/

/-- Modelled from the spec: the component-wise average of the two eye
direction vectors with X and Z negated and Y unchanged. -/
def specAvgNegXZ (resp : CommandDataServerGazeDataResult) : XrVector3f :=
  { x := F.neg ((resp.leftEye.gazeDirNorm.x + resp.rightEye.gazeDirNorm.x) /
      F.fin 2)
    y := (resp.leftEye.gazeDirNorm.y + resp.rightEye.gazeDirNorm.y) / F.fin 2
    z := F.neg ((resp.leftEye.gazeDirNorm.z + resp.rightEye.gazeDirNorm.z) /
      F.fin 2) }

/-- The code's `-(l + r) / 2.f` grouping agrees with the spec's negated
component-wise average. -/
theorem convertGaze_eq_specAvgNegXZ (resp : CommandDataServerGazeDataResult) :
    convertGaze resp = specAvgNegXZ resp := by
  simp only [convertGaze, specAvgNegXZ, F.div_def]
  rw [F.div_of_neg, F.div_of_neg]

/-- Claim C5 counterexample: a fully read gaze response with both validity
flags set but a NaN left-eye X component leaves the cache untouched, so the
cached vector is not the claimed component-wise average. -/
theorem gaze_average_claim_fails_on_nan :
    (recvLoop 1 5 0 [1]).1 ≠ 0
    ∧ ((⟨⟨⟨F.nan, F.fin 0, F.fin 0⟩, true⟩, ⟨⟨F.fin 0, F.fin 0, F.fin 0⟩, true⟩⟩ :
        CommandDataServerGazeDataResult)).leftEye.isGazeDirValid = true
    ∧ ((⟨⟨⟨F.nan, F.fin 0, F.fin 0⟩, true⟩, ⟨⟨F.fin 0, F.fin 0, F.fin 0⟩, true⟩⟩ :
        CommandDataServerGazeDataResult)).rightEye.isGazeDirValid = true
    ∧ processGazeResponse 1 initState
        ⟨[1], ⟨⟨⟨F.nan, F.fin 0, F.fin 0⟩, true⟩,
          ⟨⟨F.fin 0, F.fin 0, F.fin 0⟩, true⟩⟩, 5⟩ = initState
    ∧ initState.m_latestGaze ≠
      specAvgNegXZ ⟨⟨⟨F.nan, F.fin 0, F.fin 0⟩, true⟩,
        ⟨⟨F.fin 0, F.fin 0, F.fin 0⟩, true⟩⟩ := by
  decide

/-- Claim C5 amended: for every fully read device gaze response with both
per-eye validity flags set, the cache receives the component-wise average of
the two eye direction vectors with X and Z negated and Y unchanged, provided
no component of that average is NaN; if any component is NaN, or either
validity flag is unset, or the read is incomplete, the cache is not updated.
In particular left `(1,0,0)` and right `(−1,0,0)` yield `(0,0,0)`. -/
theorem gaze_average_with_nan_guard (size : ℕ) (st : TrackerState)
    (ev : IpcEvent) :
    ((recvLoop size 5 0 ev.chunks).1 ≠ 0 →
      ev.response.leftEye.isGazeDirValid = true →
      ev.response.rightEye.isGazeDirValid = true →
      ((convertGaze ev.response).hasNaN = false →
        processGazeResponse size st ev =
          ⟨specAvgNegXZ ev.response, ev.now⟩)
      ∧ ((convertGaze ev.response).hasNaN = true →
        processGazeResponse size st ev = st))
    ∧ ((ev.response.leftEye.isGazeDirValid = false ∨
        ev.response.rightEye.isGazeDirValid = false) →
      processGazeResponse size st ev = st)
    ∧ ((recvLoop size 5 0 ev.chunks).1 = 0 → processGazeResponse size st ev = st)
    ∧ processGazeResponse 1 initState
        ⟨[1], ⟨⟨⟨F.fin 1, F.fin 0, F.fin 0⟩, true⟩,
          ⟨⟨F.fin (-1), F.fin 0, F.fin 0⟩, true⟩⟩, 3⟩ =
      ⟨⟨F.fin 0, F.fin 0, F.fin 0⟩, 3⟩ := by
  refine ⟨?_, ?_, ?_, ?_⟩
  · intro hr hl hrv
    have hguard : ((recvLoop size 5 0 ev.chunks).1 != 0 &&
        ev.response.leftEye.isGazeDirValid &&
        ev.response.rightEye.isGazeDirValid) = true := by
      simp [hr, hl, hrv]
    constructor
    · intro hnn
      have hnn' : (specAvgNegXZ ev.response).hasNaN = false := by
        rw [← convertGaze_eq_specAvgNegXZ]
        exact hnn
      simp [processGazeResponse, hguard, recordSample,
        convertGaze_eq_specAvgNegXZ, hnn']
    · intro hnn
      simp [processGazeResponse, hguard, recordSample, hnn]
  · intro hflag
    have hguard : ((recvLoop size 5 0 ev.chunks).1 != 0 &&
        ev.response.leftEye.isGazeDirValid &&
        ev.response.rightEye.isGazeDirValid) = false := by
      rcases hflag with hf | hf <;> simp [hf]
    simp [processGazeResponse, hguard]
  · intro hr
    have hguard : ((recvLoop size 5 0 ev.chunks).1 != 0 &&
        ev.response.leftEye.isGazeDirValid &&
        ev.response.rightEye.isGazeDirValid) = false := by
      simp [hr]
    simp [processGazeResponse, hguard]
  · have hv : convertGaze ⟨⟨⟨F.fin 1, F.fin 0, F.fin 0⟩, true⟩,
        ⟨⟨F.fin (-1), F.fin 0, F.fin 0⟩, true⟩⟩ = ⟨F.fin 0, F.fin 0, F.fin 0⟩ := by
      simp [convertGaze, F.add, F.div, F.neg]
    have hr5 : (recvLoop 1 5 0 [1]).1 = 5 := by decide
    simp [processGazeResponse, recordSample, hv, hr5, XrVector3f.hasNaN, F.isNaN]

/-- Witness for the amended C5 at a fully read response holding the pair from
the spec's worked example, left `(0.1, 0.2, 0.3)` and right `(0.3, 0.2, 0.1)`,
with the hypotheses discharged concretely. -/
theorem gaze_average_with_nan_guard_witness :
    (recvLoop 1 5 0 [1]).1 ≠ 0
    ∧ (convertGaze ⟨⟨⟨F.fin (1/10), F.fin (1/5), F.fin (3/10)⟩, true⟩,
        ⟨⟨F.fin (3/10), F.fin (1/5), F.fin (1/10)⟩, true⟩⟩).hasNaN = false
    ∧ processGazeResponse 1 initState
        ⟨[1], ⟨⟨⟨F.fin (1/10), F.fin (1/5), F.fin (3/10)⟩, true⟩,
          ⟨⟨F.fin (3/10), F.fin (1/5), F.fin (1/10)⟩, true⟩⟩, 7⟩ =
      ⟨specAvgNegXZ ⟨⟨⟨F.fin (1/10), F.fin (1/5), F.fin (3/10)⟩, true⟩,
        ⟨⟨F.fin (3/10), F.fin (1/5), F.fin (1/10)⟩, true⟩⟩, 7⟩ :=
  ⟨by decide, by decide,
    ((gaze_average_with_nan_guard 1 initState
      ⟨[1], ⟨⟨⟨F.fin (1/10), F.fin (1/5), F.fin (3/10)⟩, true⟩,
        ⟨⟨F.fin (3/10), F.fin (1/5), F.fin (1/10)⟩, true⟩⟩, 7⟩).1
      (by decide) rfl rfl).1 (by decide)⟩

/-! ## Claim C6 -/

/-- Claim C6: for every network-feed message on the recognized address
pattern with well-formed, non-NaN angle arguments, the stored direction
vector is the per-axis unweighted average over both eyes of
`X = sin(yaw)·cos(pitch)`, `Y = sin(pitch)`, `Z = −cos(yaw)·cos(pitch)`
applied to the degree-to-radian-converted, pitch-sign-inverted angles; and
all-zero input angles yield exactly `(0, 0, −1)` whenever `sinf 0 = 0` and
`cosf 0 = 1` (as IEEE `sinf`/`cosf` do). -/
theorem osc_direction_vector_formula (sinf cosf : F → F) (M_PI : ℚ)
    (st : TrackerState) (m : OscMessage)
    (haddr : m.addressPattern = "/tracking/eye/LeftRightPitchYaw")
    (hwf : m.wellFormed = true)
    (h1 : m.leftPitch.isNaN = false) (h2 : m.leftYaw.isNaN = false)
    (h3 : m.rightPitch.isNaN = false) (h4 : m.rightYaw.isNaN = false) :
    ProcessMessage sinf cosf M_PI st m =
      { m_latestGaze := specDirectionVector sinf cosf M_PI m
        m_lastReceivedTime := m.now }
    ∧ (sinf (F.fin 0) = F.fin 0 → cosf (F.fin 0) = F.fin 1 →
      m.leftPitch = F.fin 0 → m.leftYaw = F.fin 0 →
      m.rightPitch = F.fin 0 → m.rightYaw = F.fin 0 →
      ProcessMessage sinf cosf M_PI st m =
        { m_latestGaze := ⟨F.fin 0, F.fin 0, F.fin (-1)⟩
          m_lastReceivedTime := m.now }) := by
  have hmain : ProcessMessage sinf cosf M_PI st m =
      { m_latestGaze := oscUnitVector sinf cosf M_PI m
        m_lastReceivedTime := m.now } := by
    simp [ProcessMessage, haddr, hwf, h1, h2, h3, h4]
  refine ⟨by rw [hmain, oscUnitVector_eq_specDirectionVector], ?_⟩
  intro hs hc e1 e2 e3 e4
  rw [hmain]
  have hp : degToRadNegPitch M_PI (F.fin 0) = F.fin 0 := by
    simp [degToRadNegPitch, F.mul, F.div]
  have hy : degToRad M_PI (F.fin 0) = F.fin 0 := by
    simp [degToRad, F.mul, F.div]
  simp [oscUnitVector, e1, e2, e3, e4, hp, hy, hs, hc, F.mul, F.add, F.sub,
    F.div, F.neg]
  norm_num

/-- Witness for C6 at an all-zero message, with `sinf`/`cosf` instantiated by
functions satisfying the zero-argument hypotheses. -/
theorem osc_direction_vector_formula_witness :
    ProcessMessage (fun _ => F.fin 0) (fun _ => F.fin 1) 3 initState
        ⟨"/tracking/eye/LeftRightPitchYaw", true, F.fin 0, F.fin 0, F.fin 0,
          F.fin 0, 11⟩ =
      { m_latestGaze := specDirectionVector (fun _ => F.fin 0)
          (fun _ => F.fin 1) 3
          ⟨"/tracking/eye/LeftRightPitchYaw", true, F.fin 0, F.fin 0, F.fin 0,
            F.fin 0, 11⟩
        m_lastReceivedTime := 11 }
    ∧ ProcessMessage (fun _ => F.fin 0) (fun _ => F.fin 1) 3 initState
        ⟨"/tracking/eye/LeftRightPitchYaw", true, F.fin 0, F.fin 0, F.fin 0,
          F.fin 0, 11⟩ =
      { m_latestGaze := ⟨F.fin 0, F.fin 0, F.fin (-1)⟩
        m_lastReceivedTime := 11 } :=
  ⟨(osc_direction_vector_formula (fun _ => F.fin 0) (fun _ => F.fin 1) 3
      initState
      ⟨"/tracking/eye/LeftRightPitchYaw", true, F.fin 0, F.fin 0, F.fin 0,
        F.fin 0, 11⟩ rfl rfl rfl rfl rfl rfl).1,
    (osc_direction_vector_formula (fun _ => F.fin 0) (fun _ => F.fin 1) 3
      initState
      ⟨"/tracking/eye/LeftRightPitchYaw", true, F.fin 0, F.fin 0, F.fin 0,
        F.fin 0, 11⟩ rfl rfl rfl rfl rfl rfl).2 rfl rfl rfl rfl rfl rfl⟩

/-! ## Claim C3 -/

/-- If the four input angles are non-NaN and `sinf`/`cosf` preserve non-NaN
(as the IEEE routines do on finite arguments), the computed unit vector has
no NaN component. -/
theorem oscUnitVector_not_nan (sinf cosf : F → F) (M_PI : ℚ)
    (hs : ∀ x : F, x.isNaN = false → (sinf x).isNaN = false)
    (hc : ∀ x : F, x.isNaN = false → (cosf x).isNaN = false)
    (m : OscMessage)
    (h1 : m.leftPitch.isNaN = false) (h2 : m.leftYaw.isNaN = false)
    (h3 : m.rightPitch.isNaN = false) (h4 : m.rightYaw.isNaN = false) :
    (oscUnitVector sinf cosf M_PI m).hasNaN = false := by
  have hlp : (degToRadNegPitch M_PI m.leftPitch).isNaN = false := by
    simp [degToRadNegPitch, h1]
  have hly : (degToRad M_PI m.leftYaw).isNaN = false := by
    simp [degToRad, h2]
  have hrp : (degToRadNegPitch M_PI m.rightPitch).isNaN = false := by
    simp [degToRadNegPitch, h3]
  have hry : (degToRad M_PI m.rightYaw).isNaN = false := by
    simp [degToRad, h4]
  simp [oscUnitVector, XrVector3f.hasNaN, hs _ hlp, hs _ hly, hs _ hrp,
    hs _ hry, hc _ hlp, hc _ hly, hc _ hrp, hc _ hry]

theorem processGazeResponse_preserves_not_nan (size : ℕ) (st : TrackerState)
    (ev : IpcEvent) (hst : st.m_latestGaze.hasNaN = false) :
    (processGazeResponse size st ev).m_latestGaze.hasNaN = false := by
  by_cases hgd : ((recvLoop size 5 0 ev.chunks).1 != 0 &&
      ev.response.leftEye.isGazeDirValid &&
      ev.response.rightEye.isGazeDirValid) = true
  · by_cases hg : (convertGaze ev.response).hasNaN = true
    · simp [processGazeResponse, hgd, recordSample, hg, hst]
    · simp [processGazeResponse, hgd, recordSample, hg]
  · simp [processGazeResponse, hgd, hst]

theorem ProcessMessage_preserves_not_nan (sinf cosf : F → F) (M_PI : ℚ)
    (hs : ∀ x : F, x.isNaN = false → (sinf x).isNaN = false)
    (hc : ∀ x : F, x.isNaN = false → (cosf x).isNaN = false)
    (st : TrackerState) (m : OscMessage)
    (hst : st.m_latestGaze.hasNaN = false) :
    (ProcessMessage sinf cosf M_PI st m).m_latestGaze.hasNaN = false := by
  by_cases ha : m.addressPattern = "/tracking/eye/LeftRightPitchYaw"
  · by_cases hw : m.wellFormed = true
    · by_cases hgate : (m.leftPitch.isNaN || m.leftYaw.isNaN ||
          m.rightPitch.isNaN || m.rightYaw.isNaN) = true
      · simp [ProcessMessage, ha, hw, hgate, hst]
      · simp only [Bool.or_eq_true, not_or, Bool.not_eq_true] at hgate
        obtain ⟨⟨⟨g1, g2⟩, g3⟩, g4⟩ := hgate
        have hvec := oscUnitVector_not_nan sinf cosf M_PI hs hc m g1 g2 g3 g4
        simp [ProcessMessage, ha, hw, g1, g2, g3, g4, hvec]
    · simp [ProcessMessage, ha, hw, hst]
  · simp [ProcessMessage, ha, hst]

/-- Claim C3: for both feeds, a gaze vector with a NaN component is never
stored — the attempted record leaves the cached vector and timestamp
unchanged — and consequently in every reachable state the cached vector has
no NaN component.  For the network feed this relies on `sinf`/`cosf`
preserving non-NaN, which the IEEE routines do on finite arguments. -/
theorem nan_never_stored (sinf cosf : F → F) (M_PI : ℚ)
    (hs : ∀ x : F, x.isNaN = false → (sinf x).isNaN = false)
    (hc : ∀ x : F, x.isNaN = false → (cosf x).isNaN = false) :
    (∀ (size : ℕ) (st : TrackerState) (ev : IpcEvent),
      (convertGaze ev.response).hasNaN = true →
        processGazeResponse size st ev = st)
    ∧ (∀ (st : TrackerState) (m : OscMessage),
      (oscUnitVector sinf cosf M_PI m).hasNaN = true →
        ProcessMessage sinf cosf M_PI st m = st)
    ∧ (∀ (size : ℕ) (evs : List IpcEvent),
      (List.foldl (processGazeResponse size) initState
        evs).m_latestGaze.hasNaN = false)
    ∧ (∀ msgs : List OscMessage,
      (List.foldl (ProcessMessage sinf cosf M_PI) initState
        msgs).m_latestGaze.hasNaN = false) := by
  refine ⟨?_, ?_, ?_, ?_⟩
  · intro size st ev hg
    by_cases hgd : ((recvLoop size 5 0 ev.chunks).1 != 0 &&
        ev.response.leftEye.isGazeDirValid &&
        ev.response.rightEye.isGazeDirValid) = true
    · simp [processGazeResponse, hgd, recordSample, hg]
    · simp [processGazeResponse, hgd]
  · intro st m hg
    by_cases ha : m.addressPattern = "/tracking/eye/LeftRightPitchYaw"
    · by_cases hw : m.wellFormed = true
      · by_cases hgate : (m.leftPitch.isNaN || m.leftYaw.isNaN ||
            m.rightPitch.isNaN || m.rightYaw.isNaN) = true
        · simp [ProcessMessage, ha, hw, hgate]
        · simp only [Bool.or_eq_true, not_or, Bool.not_eq_true] at hgate
          obtain ⟨⟨⟨g1, g2⟩, g3⟩, g4⟩ := hgate
          exact absurd hg (by
            simp [oscUnitVector_not_nan sinf cosf M_PI hs hc m g1 g2 g3 g4])
      · simp [ProcessMessage, ha, hw]
    · simp [ProcessMessage, ha]
  · intro size evs
    exact foldl_inv (processGazeResponse size)
      (fun st => st.m_latestGaze.hasNaN = false)
      (fun a b hP => processGazeResponse_preserves_not_nan size a b hP)
      evs initState rfl
  · intro msgs
    exact foldl_inv (ProcessMessage sinf cosf M_PI)
      (fun st => st.m_latestGaze.hasNaN = false)
      (fun a b hP => ProcessMessage_preserves_not_nan sinf cosf M_PI hs hc a b hP)
      msgs initState rfl

/-- Witness for C3 with concrete NaN-preserving trigonometric functions. -/
theorem nan_never_stored_witness :
    (∀ x : F, x.isNaN = false → ((fun _ => F.fin 0) x).isNaN = false)
    ∧ (∀ x : F, x.isNaN = false → ((fun _ => F.fin 1) x).isNaN = false)
    ∧ ((∀ (size : ℕ) (st : TrackerState) (ev : IpcEvent),
        (convertGaze ev.response).hasNaN = true →
          processGazeResponse size st ev = st)
      ∧ (∀ (st : TrackerState) (m : OscMessage),
        (oscUnitVector (fun _ => F.fin 0) (fun _ => F.fin 1) 3 m).hasNaN =
            true →
          ProcessMessage (fun _ => F.fin 0) (fun _ => F.fin 1) 3 st m = st)
      ∧ (∀ (size : ℕ) (evs : List IpcEvent),
        (List.foldl (processGazeResponse size) initState
          evs).m_latestGaze.hasNaN = false)
      ∧ (∀ msgs : List OscMessage,
        (List.foldl (ProcessMessage (fun _ => F.fin 0) (fun _ => F.fin 1) 3)
          initState msgs).m_latestGaze.hasNaN = false)) :=
  ⟨fun _ _ => rfl, fun _ _ => rfl,
    nan_never_stored (fun _ => F.fin 0) (fun _ => F.fin 1) 3
      (fun _ _ => rfl) (fun _ _ => rfl)⟩

/-! ## Claim C10 -/

/-- Claim C10: in every reachable state of either tracker, the cached vector
and its timestamp were written together by one accepted sample (or the state
is still the initial one): no event sequence can update one field without
the other. -/
theorem gaze_and_timestamp_from_same_sample (sinf cosf : F → F) (M_PI : ℚ)
    (size : ℕ) (evs : List IpcEvent) (msgs : List OscMessage) :
    (List.foldl (processGazeResponse size) initState evs = initState ∨
      ∃ ev ∈ evs,
        ((recvLoop size 5 0 ev.chunks).1 ≠ 0 ∧
          ev.response.leftEye.isGazeDirValid = true ∧
          ev.response.rightEye.isGazeDirValid = true ∧
          (convertGaze ev.response).hasNaN = false) ∧
        List.foldl (processGazeResponse size) initState evs =
          { m_latestGaze := convertGaze ev.response
            m_lastReceivedTime := ev.now })
    ∧ (List.foldl (ProcessMessage sinf cosf M_PI) initState msgs =
        initState ∨
      ∃ m ∈ msgs,
        (m.addressPattern = "/tracking/eye/LeftRightPitchYaw" ∧
          m.wellFormed = true ∧
          m.leftPitch.isNaN = false ∧ m.leftYaw.isNaN = false ∧
          m.rightPitch.isNaN = false ∧ m.rightYaw.isNaN = false) ∧
        List.foldl (ProcessMessage sinf cosf M_PI) initState msgs =
          { m_latestGaze := oscUnitVector sinf cosf M_PI m
            m_lastReceivedTime := m.now }) := by
  constructor
  · refine foldl_id_or_mk (processGazeResponse size) _ _ ?_ evs initState
    intro a ev
    by_cases hgd : ((recvLoop size 5 0 ev.chunks).1 != 0 &&
        ev.response.leftEye.isGazeDirValid &&
        ev.response.rightEye.isGazeDirValid) = true
    · by_cases hg : (convertGaze ev.response).hasNaN = true
      · left
        simp [processGazeResponse, hgd, recordSample, hg]
      · right
        simp only [Bool.and_eq_true, bne_iff_ne, ne_eq] at hgd
        exact ⟨⟨hgd.1.1, hgd.1.2, hgd.2, by simpa using hg⟩,
          by simp [processGazeResponse, recordSample, hg,
            Bool.and_eq_true, bne_iff_ne, hgd.1.1, hgd.1.2, hgd.2]⟩
    · left
      simp [processGazeResponse, hgd]
  · refine foldl_id_or_mk (ProcessMessage sinf cosf M_PI) _ _ ?_ msgs initState
    intro a m
    by_cases ha : m.addressPattern = "/tracking/eye/LeftRightPitchYaw"
    · by_cases hw : m.wellFormed = true
      · by_cases hgate : (m.leftPitch.isNaN || m.leftYaw.isNaN ||
            m.rightPitch.isNaN || m.rightYaw.isNaN) = true
        · left
          simp [ProcessMessage, ha, hw, hgate]
        · right
          simp only [Bool.or_eq_true, not_or, Bool.not_eq_true] at hgate
          obtain ⟨⟨⟨g1, g2⟩, g3⟩, g4⟩ := hgate
          exact ⟨⟨ha, hw, g1, g2, g3, g4⟩,
            by simp [ProcessMessage, ha, hw, g1, g2, g3, g4]⟩
      · left
        simp [ProcessMessage, ha, hw]
    · left
      simp [ProcessMessage, ha]

/-! ## Claims C2 and C8 (device-feed teardown) -/

/-- Claim C2 (documents the code bug): no iteration of the IPC loop ever
clears `m_started` — nothing in the program does (`stop()` has an empty
body, and the destructor performs only join/shutdown/close/cleanup) — so
once started, the `while (m_started)` guard reads `true` forever and the
destructor's `join()` can never return: teardown of a started device tracker
does not complete in bounded time. -/
theorem device_teardown_never_stops_loop (size : ℕ) (evs : List IpcEvent)
    (st : TrackerState) :
    (List.foldl (ipcThreadIteration size)
      { m_started := true, state := st } evs).m_started = true
    ∧ stopSteps = []
    ∧ destructorSteps true true =
      [TeardownStep.joinThread, TeardownStep.shutdownSocket,
        TeardownStep.closeSocket, TeardownStep.wsaCleanup] := by
  refine ⟨?_, rfl, rfl⟩
  have hpres : ∀ (l : List IpcEvent) (s : IpcLoopState),
      (List.foldl (ipcThreadIteration size) s l).m_started = s.m_started := by
    intro l
    induction l with
    | nil => intro s; rfl
    | cons e t ih =>
      intro s
      rw [List.foldl_cons, ih]
      unfold ipcThreadIteration
      split <;> rfl
  exact hpres evs { m_started := true, state := st }

/-- Claim C8 (documents the code bug): the destructor of a started device
tracker joins the listening thread *before* the socket shutdown/close steps,
the opposite of the order the claim requires. -/
theorem destructor_joins_before_socket_shutdown :
    destructorSteps true true =
      [TeardownStep.joinThread, TeardownStep.shutdownSocket,
        TeardownStep.closeSocket, TeardownStep.wsaCleanup]
    ∧ List.indexOf TeardownStep.joinThread (destructorSteps true true) <
      List.indexOf TeardownStep.shutdownSocket (destructorSteps true true) :=
  ⟨rfl, by decide⟩

end OpenXREyeTrackers
